import Mathlib

/-
Verification of the Rock-Paper-Scissors-Plus referee
(src/Game/rps_plus_referee.py) against its specification.

The embedding is shallow: moves are the Python strings themselves,
`resolve_round_outcome` and `update_game_state` are translated branch by
branch from the source, and the mutable global `_game_state` becomes an
explicitly passed `GameState` value.  Functions that only read the state
return it unchanged alongside their result.
-/

namespace RPSPlus

/-- The outcome dict returned by `resolve_round_outcome`
(keys: result, winner, message, user_score_delta, bot_score_delta).
Score deltas are Python non-negative ints, embedded as `Nat`. -/
structure Outcome where
  result : String
  winner : String
  message : String
  user_score_delta : Nat
  bot_score_delta : Nat
  deriving DecidableEq, Repr

/-- The `GameState` dataclass (lines 70-78 of the source). -/
structure GameState where
  round_number : Nat
  user_score : Nat
  bot_score : Nat
  user_bomb_used : Bool
  bot_bomb_used : Bool
  game_over : Bool
  deriving DecidableEq, Repr

/-- Fresh `GameState()` with all dataclass defaults, as built at game start. -/
def GameState.init : GameState :=
  ⟨0, 0, 0, false, false, false⟩

/-- The list `valid_moves` of recognized move names (line 99). -/
def valid_moves : List String :=
  ["rock", "paper", "scissors", "bomb"]

/-- Python whitespace characters stripped by `str.strip()`, restricted to
the ASCII whitespace set (space, tab, newline, carriage return, vertical
tab, form feed); every input in this development is ASCII. -/
def pyIsSpace (c : Char) : Bool :=
  c = ' ' || c = '\t' || c = '\n' || c = '\x0d' || c = '\x0b' || c = '\x0c'

/-- Python `str.strip()`: remove leading and trailing whitespace. -/
def pyStrip (s : String) : String :=
  String.mk (((s.toList.dropWhile pyIsSpace).reverse.dropWhile pyIsSpace).reverse)

/-- Python `str.lower()` on ASCII text: lowercase every character. -/
def pyLower (s : String) : String :=
  String.mk (s.toList.map Char.toLower)

/-- Tool `validate_and_normalize_input` (lines 89-118).  The source reads the
global `_game_state.user_bomb_used` and writes nothing, so the embedding
takes the state and returns it unchanged together with the result pair
`(normalized_move, status)`. -/
def validate_and_normalize_input (user_input : String) (g : GameState) :
    GameState × (String × String) :=
  let normalized := pyLower (pyStrip user_input)
  if normalized ∉ valid_moves then
    (g, ("invalid", "Invalid move. Must be one of: rock, paper, scissors, bomb."))
  else if normalized = "bomb" ∧ g.user_bomb_used = true then
    (g, ("invalid", "Bomb already used. Cannot use bomb again."))
  else
    (g, (normalized, "valid"))

/-- The `win_conditions` dict (lines 173-177), embedded as its lookup
function: the three user-winning pairs map to their message, every other
key is absent. -/
def win_conditions_lookup (p : String × String) : Option String :=
  if p = ("rock", "scissors") then some "User wins this round."
  else if p = ("scissors", "paper") then some "User wins this round."
  else if p = ("paper", "rock") then some "User wins this round."
  else none

/-- Tool `resolve_round_outcome` (lines 121-194), branch for branch. -/
def resolve_round_outcome (user_move bot_move : String) : Outcome :=
  if user_move = "invalid" then
    ⟨"invalid", "bot", "Invalid input. Round forfeited.", 0, 0⟩
  else if user_move = bot_move then
    ⟨"draw", "none", "Draw.", 0, 0⟩
  else if user_move = "bomb" then
    ⟨"win", "user", "User wins this round (bomb beats all).", 1, 0⟩
  else if bot_move = "bomb" then
    ⟨"win", "bot", "Bot wins this round (bomb beats all).", 0, 1⟩
  else
    match win_conditions_lookup (user_move, bot_move) with
    | some msg => ⟨"win", "user", msg, 1, 0⟩
    | none => ⟨"win", "bot", "Bot wins this round.", 0, 1⟩

/-- Tool `update_game_state` (lines 197-233): increment the round counter, add
the score deltas, latch the bomb flags, and set `game_over` once the
(incremented) round counter reaches 3.  The returned dict mirrors the six
state fields, so the embedding returns the new state. -/
def update_game_state (user_move bot_move : String) (outcome : Outcome)
    (s : GameState) : GameState :=
  ⟨s.round_number + 1,
   s.user_score + outcome.user_score_delta,
   s.bot_score + outcome.bot_score_delta,
   if user_move = "bomb" then true else s.user_bomb_used,
   if bot_move = "bomb" then true else s.bot_bomb_used,
   if s.round_number + 1 ≥ 3 then true else s.game_over⟩

/-- One full round as the driving loop performs it: resolve the two moves,
then apply the outcome to the state. -/
def playRound (s : GameState) (p : String × String) : GameState :=
  update_game_state p.1 p.2 (resolve_round_outcome p.1 p.2) s

/-- A sequence of rounds applied in order. -/
def playRounds (rounds : List (String × String)) (s : GameState) : GameState :=
  rounds.foldl playRound s

/-- The keys of the `win_conditions` dict: the pairs (user, bot) the
source scores as a user win, i.e. rock beats scissors, scissors beats
paper, paper beats rock. -/
def win_pairs : List (String × String) :=
  [("rock", "scissors"), ("scissors", "paper"), ("paper", "rock")]

/-- The three canonical moves other than bomb. -/
def nonbomb_moves : List String :=
  ["rock", "paper", "scissors"]

/-- An outcome crediting the round to the user: winner user, deltas (1,0). -/
abbrev userWinOutcome (o : Outcome) : Prop :=
  o.winner = "user" ∧ o.user_score_delta = 1 ∧ o.bot_score_delta = 0

/-- An outcome crediting the round to the bot: winner bot, deltas (0,1). -/
abbrev botWinOutcome (o : Outcome) : Prop :=
  o.winner = "bot" ∧ o.user_score_delta = 0 ∧ o.bot_score_delta = 1

/-- Claim C2: for every bot move X, resolving an invalid user move yields
result invalid, winner bot, both deltas 0 and the forfeit message; the
invalid branch precedes every other rule. -/
theorem claim_c2 (X : String) :
    resolve_round_outcome "invalid" X =
      ⟨"invalid", "bot", "Invalid input. Round forfeited.", 0, 0⟩ := by
  simp [resolve_round_outcome]

/-- Claim C3: bomb against bomb is a draw with deltas (0,0); bomb against
any non-bomb canonical move wins for whichever side played the bomb, with
the winner's delta 1 and the loser's 0. -/
theorem claim_c3 (X : String) (hX : X ∈ valid_moves) (hnb : X ≠ "bomb") :
    resolve_round_outcome "bomb" "bomb" = ⟨"draw", "none", "Draw.", 0, 0⟩ ∧
    (resolve_round_outcome "bomb" X).winner = "user" ∧
    (resolve_round_outcome "bomb" X).user_score_delta = 1 ∧
    (resolve_round_outcome "bomb" X).bot_score_delta = 0 ∧
    (resolve_round_outcome X "bomb").winner = "bot" ∧
    (resolve_round_outcome X "bomb").user_score_delta = 0 ∧
    (resolve_round_outcome X "bomb").bot_score_delta = 1 := by
  simp only [valid_moves, List.mem_cons, List.not_mem_nil, or_false] at hX
  rcases hX with rfl | rfl | rfl | rfl
  · exact ⟨by decide, by decide, by decide, by decide, by decide, by decide, by decide⟩
  · exact ⟨by decide, by decide, by decide, by decide, by decide, by decide, by decide⟩
  · exact ⟨by decide, by decide, by decide, by decide, by decide, by decide, by decide⟩
  · exact absurd rfl hnb

/-- Witness for C3 at the concrete non-bomb move rock. -/
theorem claim_c3_witness :
    resolve_round_outcome "bomb" "bomb" = ⟨"draw", "none", "Draw.", 0, 0⟩ ∧
    (resolve_round_outcome "bomb" "rock").winner = "user" ∧
    (resolve_round_outcome "bomb" "rock").user_score_delta = 1 ∧
    (resolve_round_outcome "bomb" "rock").bot_score_delta = 0 ∧
    (resolve_round_outcome "rock" "bomb").winner = "bot" ∧
    (resolve_round_outcome "rock" "bomb").user_score_delta = 0 ∧
    (resolve_round_outcome "rock" "bomb").bot_score_delta = 1 :=
  claim_c3 "rock" (by decide) (by decide)

/-- Claim C4: for every pair of distinct non-bomb canonical moves, exactly
one order is a user win with deltas (1,0) and the other a bot win with
deltas (0,1), and the user wins precisely on the pairs of the beats
relation rock beats scissors, scissors beats paper, paper beats rock. -/
theorem claim_c4 (a b : String) (ha : a ∈ nonbomb_moves) (hb : b ∈ nonbomb_moves)
    (hab : a ≠ b) :
    ((userWinOutcome (resolve_round_outcome a b) ∧
        botWinOutcome (resolve_round_outcome b a)) ∨
      (botWinOutcome (resolve_round_outcome a b) ∧
        userWinOutcome (resolve_round_outcome b a))) ∧
    ¬(userWinOutcome (resolve_round_outcome a b) ∧
        userWinOutcome (resolve_round_outcome b a)) ∧
    (userWinOutcome (resolve_round_outcome a b) ↔ (a, b) ∈ win_pairs) := by
  simp only [nonbomb_moves, List.mem_cons, List.not_mem_nil, or_false] at ha hb
  rcases ha with rfl | rfl | rfl <;> rcases hb with rfl | rfl | rfl <;>
    first
      | exact absurd rfl hab
      | decide

/-- Witness for C4 at the concrete pair (rock, scissors). -/
theorem claim_c4_witness :
    ((userWinOutcome (resolve_round_outcome "rock" "scissors") ∧
        botWinOutcome (resolve_round_outcome "scissors" "rock")) ∨
      (botWinOutcome (resolve_round_outcome "rock" "scissors") ∧
        userWinOutcome (resolve_round_outcome "scissors" "rock"))) ∧
    ¬(userWinOutcome (resolve_round_outcome "rock" "scissors") ∧
        userWinOutcome (resolve_round_outcome "scissors" "rock")) ∧
    (userWinOutcome (resolve_round_outcome "rock" "scissors") ↔
      ("rock", "scissors") ∈ win_pairs) :=
  claim_c4 "rock" "scissors" (by decide) (by decide) (by decide)

/-- Claim C5: validation normalizes by stripping and lowercasing; a
normalized text outside the move vocabulary yields invalid with the
vocabulary message; a normalized bomb with the user bomb flag set yields
invalid with the bomb-reuse message; and the raw text BOMB followed by a
space with the flag clear normalizes to bomb with status valid. -/
theorem claim_c5 (input : String) (g : GameState) :
    (pyLower (pyStrip input) ∉ valid_moves →
      validate_and_normalize_input input g =
        (g, ("invalid", "Invalid move. Must be one of: rock, paper, scissors, bomb."))) ∧
    (pyLower (pyStrip input) = "bomb" → g.user_bomb_used = true →
      validate_and_normalize_input input g =
        (g, ("invalid", "Bomb already used. Cannot use bomb again."))) ∧
    (g.user_bomb_used = false →
      validate_and_normalize_input "BOMB " g = (g, ("bomb", "valid"))) := by
  refine ⟨?_, ?_, ?_⟩
  · intro h
    simp only [validate_and_normalize_input, if_pos h]
  · intro h1 h2
    simp [validate_and_normalize_input, h1, h2, valid_moves]
  · intro h
    have hn : pyLower (pyStrip "BOMB ") = "bomb" := by decide
    simp [validate_and_normalize_input, hn, h, valid_moves]

/-- Witness for C5: lizard is rejected with the vocabulary message, bomb
with the flag set is rejected with the reuse message, and BOMB with a
trailing space is accepted as bomb. -/
theorem claim_c5_witness :
    validate_and_normalize_input "lizard" GameState.init =
      (GameState.init,
        ("invalid", "Invalid move. Must be one of: rock, paper, scissors, bomb.")) ∧
    validate_and_normalize_input "bomb" ⟨0, 0, 0, true, false, false⟩ =
      (⟨0, 0, 0, true, false, false⟩,
        ("invalid", "Bomb already used. Cannot use bomb again.")) ∧
    validate_and_normalize_input "BOMB " GameState.init =
      (GameState.init, ("bomb", "valid")) :=
  ⟨(claim_c5 "lizard" GameState.init).1 (by decide),
   (claim_c5 "bomb" ⟨0, 0, 0, true, false, false⟩).2.1 (by decide) rfl,
   (claim_c5 "BOMB " GameState.init).2.2 rfl⟩

/-- Claim C8: validation is pure and depends only on the raw text and the
user bomb flag: two states agreeing on that flag give the same result,
and each call returns its state unchanged. -/
theorem claim_c8 (input : String) (g1 g2 : GameState)
    (h : g1.user_bomb_used = g2.user_bomb_used) :
    (validate_and_normalize_input input g1).2 =
      (validate_and_normalize_input input g2).2 ∧
    (validate_and_normalize_input input g1).1 = g1 ∧
    (validate_and_normalize_input input g2).1 = g2 := by
  refine ⟨?_, ?_, ?_⟩
  · simp only [validate_and_normalize_input, h]
    split_ifs <;> rfl
  · simp only [validate_and_normalize_input]
    split_ifs <;> rfl
  · simp only [validate_and_normalize_input]
    split_ifs <;> rfl

/-- Witness for C8: two states that agree only on the user bomb flag
validate rock identically, leaving both states unchanged. -/
theorem claim_c8_witness :
    (validate_and_normalize_input "rock" GameState.init).2 =
      (validate_and_normalize_input "rock" ⟨5, 2, 1, false, true, true⟩).2 ∧
    (validate_and_normalize_input "rock" GameState.init).1 = GameState.init ∧
    (validate_and_normalize_input "rock" ⟨5, 2, 1, false, true, true⟩).1 =
      ⟨5, 2, 1, false, true, true⟩ :=
  claim_c8 "rock" GameState.init ⟨5, 2, 1, false, true, true⟩ rfl

/-- Each applied round increments the round counter by exactly one. -/
theorem playRounds_round_number (rounds : List (String × String)) (s : GameState) :
    (playRounds rounds s).round_number = s.round_number + rounds.length := by
  induction rounds generalizing s with
  | nil => rfl
  | cons p ps ih =>
      have h1 : playRounds (p :: ps) s = playRounds ps (playRound s p) := rfl
      have h2 : (playRound s p).round_number = s.round_number + 1 := rfl
      rw [h1, ih, h2, List.length_cons]
      omega

/-- The termination flag after a run: set exactly when it was already set,
or at least one round was played and the counter reached three. -/
theorem playRounds_game_over (rounds : List (String × String)) (s : GameState) :
    ((playRounds rounds s).game_over = true ↔
      (s.game_over = true ∨
        (1 ≤ rounds.length ∧ 3 ≤ s.round_number + rounds.length))) := by
  induction rounds generalizing s with
  | nil => simp [playRounds]
  | cons p ps ih =>
      have h1 : playRounds (p :: ps) s = playRounds ps (playRound s p) := rfl
      have hrn : (playRound s p).round_number = s.round_number + 1 := rfl
      have hgo : (playRound s p).game_over =
          (if s.round_number + 1 ≥ 3 then true else s.game_over) := rfl
      rw [h1, ih, hrn, hgo, List.length_cons]
      split_ifs with h
      · simp only [true_or]
        constructor
        · intro _
          exact Or.inr ⟨by omega, by omega⟩
        · intro _
          trivial
      · constructor
        · rintro (hg | ⟨hlen, hsum⟩)
          · exact Or.inl hg
          · exact Or.inr ⟨by omega, by omega⟩
        · rintro (hg | ⟨hlen, hsum⟩)
          · exact Or.inl hg
          · exact Or.inr ⟨by omega, by omega⟩

/-- Claim C6: from a fresh state the round counter equals the number of
rounds applied, and the game is over precisely when at least three rounds
were applied; in particular three rounds end the game and zero, one or two
rounds leave it running. -/
theorem claim_c6 (rounds : List (String × String)) :
    (playRounds rounds GameState.init).round_number = rounds.length ∧
    ((playRounds rounds GameState.init).game_over = true ↔ 3 ≤ rounds.length) := by
  constructor
  · rw [playRounds_round_number]
    simp [GameState.init]
  · rw [playRounds_game_over]
    simp only [GameState.init]
    constructor
    · rintro (hg | ⟨hlen, hsum⟩)
      · exact absurd hg (by decide)
      · omega
    · intro h
      exact Or.inr ⟨by omega, by omega⟩

/-- Witness for C6: a concrete three-round run ends the game at round
three, and a concrete two-round run leaves it open. -/
theorem claim_c6_witness :
    (playRounds [("rock", "paper"), ("rock", "paper"), ("rock", "paper")]
        GameState.init).round_number = 3 ∧
    (playRounds [("rock", "paper"), ("rock", "paper"), ("rock", "paper")]
        GameState.init).game_over = true ∧
    (playRounds [("rock", "paper"), ("rock", "paper")]
        GameState.init).game_over = false := by
  refine ⟨?_, ?_, ?_⟩
  · exact (claim_c6 [("rock", "paper"), ("rock", "paper"), ("rock", "paper")]).1
  · exact (claim_c6 [("rock", "paper"), ("rock", "paper"), ("rock", "paper")]).2.mpr
      (by decide)
  · have h := (claim_c6 [("rock", "paper"), ("rock", "paper")]).2
    simp only [List.length_cons, List.length_nil] at h
    rcases hb : (playRounds [("rock", "paper"), ("rock", "paper")]
        GameState.init).game_over with _ | _
    · rfl
    · exact absurd (h.mp hb) (by decide)

/-- Claim C7: the bomb flags are monotone under the state update, and the
updated flag is set precisely when it was already set or that side played
bomb in the applied round. -/
theorem claim_c7 (um bm : String) (o : Outcome) (s : GameState) :
    (s.user_bomb_used = true → (update_game_state um bm o s).user_bomb_used = true) ∧
    (s.bot_bomb_used = true → (update_game_state um bm o s).bot_bomb_used = true) ∧
    ((update_game_state um bm o s).user_bomb_used = true ↔
      (s.user_bomb_used = true ∨ um = "bomb")) ∧
    ((update_game_state um bm o s).bot_bomb_used = true ↔
      (s.bot_bomb_used = true ∨ bm = "bomb")) := by
  have hu : (update_game_state um bm o s).user_bomb_used =
      (if um = "bomb" then true else s.user_bomb_used) := rfl
  have hb : (update_game_state um bm o s).bot_bomb_used =
      (if bm = "bomb" then true else s.bot_bomb_used) := rfl
  rw [hu, hb]
  refine ⟨?_, ?_, ?_, ?_⟩ <;> split_ifs with h <;> simp [h]

/-- Witness for C7: a state with both flags set keeps them set after a
bomb against rock round. -/
theorem claim_c7_witness :
    (update_game_state "bomb" "rock"
        ⟨"win", "user", "User wins this round (bomb beats all).", 1, 0⟩
        ⟨0, 0, 0, true, true, false⟩).user_bomb_used = true ∧
    (update_game_state "bomb" "rock"
        ⟨"win", "user", "User wins this round (bomb beats all).", 1, 0⟩
        ⟨0, 0, 0, true, true, false⟩).bot_bomb_used = true :=
  ⟨(claim_c7 "bomb" "rock"
      ⟨"win", "user", "User wins this round (bomb beats all).", 1, 0⟩
      ⟨0, 0, 0, true, true, false⟩).1 rfl,
   (claim_c7 "bomb" "rock"
      ⟨"win", "user", "User wins this round (bomb beats all).", 1, 0⟩
      ⟨0, 0, 0, true, true, false⟩).2.1 rfl⟩

/-- Counterexample to claim C1: on a concrete terminal state (game_over
true) the state update does not fail and does not leave the state alone —
it increments the round counter to 4 and returns a changed state. -/
theorem claim_c1_counterexample :
    (⟨3, 2, 1, true, false, true⟩ : GameState).game_over = true ∧
    update_game_state "rock" "scissors"
        (resolve_round_outcome "rock" "scissors") ⟨3, 2, 1, true, false, true⟩ ≠
      (⟨3, 2, 1, true, false, true⟩ : GameState) ∧
    (update_game_state "rock" "scissors"
        (resolve_round_outcome "rock" "scissors")
        ⟨3, 2, 1, true, false, true⟩).round_number = 4 := by
  decide

/-- Claim C1 amended: the state update performs no terminal-state check;
invoked on a state whose game_over flag is already true it silently
applies the usual mutation — incrementing the round counter, adding the
deltas — and leaves game_over true, rather than rejecting the call. -/
theorem claim_c1_amended (um bm : String) (o : Outcome) (s : GameState)
    (h : s.game_over = true) :
    (update_game_state um bm o s).round_number = s.round_number + 1 ∧
    (update_game_state um bm o s).user_score = s.user_score + o.user_score_delta ∧
    (update_game_state um bm o s).bot_score = s.bot_score + o.bot_score_delta ∧
    (update_game_state um bm o s).game_over = true := by
  refine ⟨rfl, rfl, rfl, ?_⟩
  have hgo : (update_game_state um bm o s).game_over =
      (if s.round_number + 1 ≥ 3 then true else s.game_over) := rfl
  rw [hgo]
  split_ifs <;> simp [h]

/-- Witness for the amended C1 on a concrete terminal state. -/
theorem claim_c1_amended_witness :
    (update_game_state "paper" "rock"
        (resolve_round_outcome "paper" "rock")
        ⟨3, 1, 2, false, true, true⟩).round_number = 3 + 1 ∧
    (update_game_state "paper" "rock"
        (resolve_round_outcome "paper" "rock")
        ⟨3, 1, 2, false, true, true⟩).user_score =
      1 + (resolve_round_outcome "paper" "rock").user_score_delta ∧
    (update_game_state "paper" "rock"
        (resolve_round_outcome "paper" "rock")
        ⟨3, 1, 2, false, true, true⟩).bot_score =
      2 + (resolve_round_outcome "paper" "rock").bot_score_delta ∧
    (update_game_state "paper" "rock"
        (resolve_round_outcome "paper" "rock")
        ⟨3, 1, 2, false, true, true⟩).game_over = true :=
  claim_c1_amended "paper" "rock" (resolve_round_outcome "paper" "rock")
    ⟨3, 1, 2, false, true, true⟩ rfl

/-- Counterexample to claim C9: in round 2 of the stated scenario the user
plays paper against the bot playing rock, which the code scores as a user
win (paper beats rock), not a bot win; the full run therefore ends 3-0,
not 2-1. -/
theorem claim_c9_counterexample :
    (resolve_round_outcome "paper" "rock").winner = "user" ∧
    (resolve_round_outcome "paper" "rock").winner ≠ "bot" ∧
    (playRounds [("rock", "scissors"), ("paper", "rock"), ("bomb", "rock")]
        GameState.init).user_score = 3 ∧
    (playRounds [("rock", "scissors"), ("paper", "rock"), ("bomb", "rock")]
        GameState.init).bot_score = 0 := by
  decide

/-- Claim C9 amended: rock, paper, bomb against scissors, rock, rock gives
the user round 1 (1-0), round 2 via paper over rock (2-0) and round 3 via
bomb (3-0); the final state has round_number 3, user_score 3, bot_score 0,
user_bomb_used true and game_over true. -/
theorem claim_c9_amended :
    playRound GameState.init ("rock", "scissors") =
      ⟨1, 1, 0, false, false, false⟩ ∧
    playRound ⟨1, 1, 0, false, false, false⟩ ("paper", "rock") =
      ⟨2, 2, 0, false, false, false⟩ ∧
    playRound ⟨2, 2, 0, false, false, false⟩ ("bomb", "rock") =
      ⟨3, 3, 0, true, false, true⟩ ∧
    playRounds [("rock", "scissors"), ("paper", "rock"), ("bomb", "rock")]
        GameState.init = ⟨3, 3, 0, true, false, true⟩ := by
  decide

/-- Pairs outside the win_conditions dict have no entry. -/
theorem win_conditions_lookup_eq_none (p : String × String)
    (hp : p ∉ win_pairs) : win_conditions_lookup p = none := by
  simp only [win_pairs, List.mem_cons, List.not_mem_nil, or_false, not_or] at hp
  obtain ⟨h1, h2, h3⟩ := hp
  simp [win_conditions_lookup, h1, h2, h3]

/-- Claim C10: resolution is total over arbitrary strings with deltas
always one of (0,0), (1,0), (0,1); and any pair of distinct strings with
user move neither invalid nor bomb, bot move not bomb, and the pair not a
listed user-winning pair, falls through to the final branch and is scored
as a bot win with deltas (0,1). -/
theorem claim_c10 (um bm : String) :
    ((resolve_round_outcome um bm).user_score_delta,
        (resolve_round_outcome um bm).bot_score_delta) ∈
      ([(0, 0), (1, 0), (0, 1)] : List (Nat × Nat)) ∧
    (um ≠ bm → um ≠ "invalid" → um ≠ "bomb" → bm ≠ "bomb" →
      (um, bm) ∉ win_pairs →
      resolve_round_outcome um bm = ⟨"win", "bot", "Bot wins this round.", 0, 1⟩) := by
  constructor
  · unfold resolve_round_outcome
    split_ifs <;> try decide
    rcases h : win_conditions_lookup (um, bm) with _ | msg <;> simp [h]
  · intro hne hinv hub hbb hwp
    unfold resolve_round_outcome
    rw [if_neg hinv, if_neg hne, if_neg hub, if_neg hbb,
      win_conditions_lookup_eq_none (um, bm) hwp]

/-- Witness for C10: rock against the out-of-vocabulary string lizard is
scored as a bot win with deltas (0,1). -/
theorem claim_c10_witness :
    ((resolve_round_outcome "rock" "lizard").user_score_delta,
        (resolve_round_outcome "rock" "lizard").bot_score_delta) ∈
      ([(0, 0), (1, 0), (0, 1)] : List (Nat × Nat)) ∧
    resolve_round_outcome "rock" "lizard" =
      ⟨"win", "bot", "Bot wins this round.", 0, 1⟩ :=
  ⟨(claim_c10 "rock" "lizard").1,
   (claim_c10 "rock" "lizard").2 (by decide) (by decide) (by decide)
     (by decide) (by decide)⟩

end RPSPlus
